import Mathlib

/-!
A shallow embedding of `debug.c` (arcetri/demo-prime)

`debug.c` is a stderr diagnostic facility: `msg`, `dbg`, `warn`, `warnp`,
`err`, `errp`, `usage_err`, `usage_errp`.  Every operation performs a
sequence of `fprintf`/`vfprintf`/`fputc` writes to `stderr` and either
returns or calls `exit(code)`.

The embedding below models one call to one operation as a pure value:

* the writes become `out : List String`, one list entry per C write call,
  in program order; the text actually sent to stderr is `String.join out`;
* `exit(code)` becomes `exitCode = some code`, a plain return becomes
  `exitCode = none`;
* a C string pointer that may be `NULL` becomes `Option String`;
* a `printf`-style pair (format, varargs) is modelled by the string it
  renders to: a parameter `fmt : Option String` is `none` for a `NULL`
  format pointer and `some m` when the format is non-NULL and formatting
  it with the call's varargs yields `m`.  `vfprintf` is modelled as always
  succeeding on the stream, returning the number of characters written
  (`m.length`), so its `ret <= 0` recovery branch fires exactly when the
  rendered text is empty;
* the C global `errno` at operation entry becomes an explicit argument
  `errnoEntry` (the value `saved_errno = errno;` captures); where the code
  reads the live `errno` again later (`errp`, line 384 of `debug.c`), the
  value it reads then is a separate argument `errnoAtCheck`, because the
  stdio calls made in between are permitted by C (C99 7.5p3) to set
  `errno` to a nonzero value, and never set it to zero;
* `strerror` is libc, outside this repository: it is passed in as an
  uninterpreted function `strerror : Int → String`;
* the globals `debuglevel`, `program` and `version_string` are set by
  external collaborators, so they are arguments too.
-/

namespace Debug

/-- Modelled from the spec: `FORCED_EXIT` is defined in `debug.h`, which is
not part of `src/`.  Its value, 255, is fixed by the spec's "reserved
fallback value (255)" and by `debug.c`'s own comments
(`/* NUMERIC EXIT CODES: 255 debug.c - FORCED_EXIT */` and the inline
`// exit(255);` remarks). -/
def FORCED_EXIT : Int := 255

/-- The placeholder substituted for a `NULL` name (`debug.c` uses the
literal `"((NULL name))"`). -/
def NULL_NAME : String := "((NULL name))"

/-- The placeholder substituted for a `NULL` format (`debug.c` uses the
literal `"((NULL fmt))"`). -/
def NULL_FMT : String := "((NULL fmt))"

/-- Result of one call to one operation of `debug.c`: the stderr writes in
order, and `some code` when the call ends in `exit(code)`. -/
structure DiagResult where
  out : List String
  exitCode : Option Int
  deriving Repr, DecidableEq

/-- The writes of `vfprintf(stderr, fmt, ap)` followed by the
`if (ret <= 0) fprintf(stderr, "[%s vfprintf returned error: %d]", ...)`
recovery used by `msg`, `dbg`, `warn`, `warnp`, `err` and `errp`.
`m` is the rendered text; the stream is modelled as always succeeding, so
`ret = m.length` and the recovery branch fires iff `m` is empty. -/
def writeBody (func m : String) : List String :=
  m :: (if m = "" then ["[" ++ func ++ " vfprintf returned error: 0]"] else [])

/-- Same, for `usage_err` and `usage_errp`, whose recovery text
(`"%s: vfprintf returned error: %d"`, lines 451 and 532) has no square
brackets. -/
def usageWriteBody (func m : String) : List String :=
  m :: (if m = "" then [func ++ ": vfprintf returned error: 0"] else [])

/-- The writes shared by `warn` (lines 156–193) and `warnp` (lines
211–244, before its errno line): the two raw-`fprintf` firewall warnings
for a `NULL` name or format, then `"Warning: <name>: "`, the body, and the
newline.  `func` is `__func__`. -/
def warnLikeChunks (func : String) (name fmt : Option String) : List String :=
  (match name with
    | none => ["Warning: " ++ func ++ " called with NULL name\n"]
    | some _ => []) ++
  (match fmt with
    | none => ["Warning: " ++ func ++ " called with NULL fmt\n"]
    | some _ => []) ++
  ("Warning: " ++ name.getD NULL_NAME ++ ": ") :: writeBody func (fmt.getD NULL_FMT) ++ ["\n"]

/-- The stderr writes of one `warn(name, fmt, ...)` call (lines 155–193). -/
def warnChunks (name fmt : Option String) : List String :=
  warnLikeChunks "warn" name fmt

/-- Operation `warn` as a whole: writes its chunks and returns. -/
def warn (name fmt : Option String) : DiagResult :=
  { out := warnChunks name fmt, exitCode := none }

/-- The errno suffix line `fprintf(stderr, "errno[%d]: %s\n", e, strerror(e))`. -/
def errnoLine (strerror : Int → String) (e : Int) : String :=
  "errno[" ++ toString e ++ "]: " ++ strerror e ++ "\n"

/-- Operation `msg(fmt, ...)` (lines 56–89): firewall-warn on a `NULL` format via
`warn(__func__, "NULL fmt given to debug")`, then print the body and a
newline; never exits. -/
def msg (fmt : Option String) : DiagResult :=
  { out :=
      (match fmt with
        | none => warnChunks (some "msg") (some "NULL fmt given to debug")
        | some _ => []) ++
      writeBody "msg" (fmt.getD NULL_FMT) ++ ["\n"],
    exitCode := none }

/-- Operation `dbg(level, fmt, ...)` (lines 105–140): the `NULL`-format firewall runs
first (lines 119–122), then the body is printed only when
`level <= debuglevel` (line 127); never exits. -/
def dbg (debuglevel level : Int) (fmt : Option String) : DiagResult :=
  { out :=
      (match fmt with
        | none => warnChunks (some "dbg") (some "NULL fmt given to debug")
        | some _ => []) ++
      (if level ≤ debuglevel then writeBody "dbg" (fmt.getD NULL_FMT) ++ ["\n"] else []),
    exitCode := none }

/-- Operation `warnp(name, fmt, ...)` (lines 210–251): `saved_errno = errno;` is the
first statement (line 220), so the suffix line always shows `errnoEntry`;
the suffix is printed unconditionally (line 244); never exits. -/
def warnp (strerror : Int → String) (errnoEntry : Int) (name fmt : Option String) :
    DiagResult :=
  { out := warnLikeChunks "warnp" name fmt ++ [errnoLine strerror errnoEntry],
    exitCode := none }

/-- The exit-code firewall of `err` and `errp` (lines 283–292 and 356–365):
two sequential `if`s; each offender emits `warn(__func__, ...)` twice and
forces `FORCED_EXIT`.  Returns the warn writes and the final exit code.
After the `>= 256` branch forces 255 the `< 0` branch cannot fire. -/
def errExitcodeFirewall (func : String) (exitcode : Int) : List String × Int :=
  let s1 : List String × Int :=
    if 256 ≤ exitcode then
      (warnChunks (some func) (some ("called with exitcode >= 256: " ++ toString exitcode)) ++
       warnChunks (some func) (some ("forcing exit code: " ++ toString FORCED_EXIT)),
       FORCED_EXIT)
    else ([], exitcode)
  if s1.2 < 0 then
    (s1.1 ++
     warnChunks (some func) (some ("called with exitcode < 0: " ++ toString s1.2)) ++
     warnChunks (some func) (some ("forcing exit code: " ++ toString FORCED_EXIT)),
     FORCED_EXIT)
  else s1

/-- The `NULL`-name / `NULL`-format firewall of the four fatal operations
(e.g. lines 293–300): each offender emits one `warn(__func__, ...)`;
returns the warn writes and the substituted name and format. -/
def nameFmtFirewall (func : String) (name fmt : Option String) :
    List String × String × String :=
  ((match name with
     | none => warnChunks (some func) (some "called with NULL name")
     | some _ => []) ++
   (match fmt with
     | none => warnChunks (some func) (some "called with NULL fmt")
     | some _ => []),
   name.getD NULL_NAME, fmt.getD NULL_FMT)

/-- Operation `err(exitcode, name, fmt, ...)` (lines 269–321): exit-code firewall,
name/format firewall, `"FATAL: <name>: "` plus body plus newline, then
`exit(exitcode)`. -/
def err (exitcode : Int) (name fmt : Option String) : DiagResult :=
  let fw := errExitcodeFirewall "err" exitcode
  let nf := nameFmtFirewall "err" name fmt
  { out := fw.1 ++ nf.1 ++
      ("FATAL: " ++ nf.2.1 ++ ": ") :: writeBody "err" nf.2.2 ++ ["\n"],
    exitCode := some fw.2 }

/-- Operation `errp(exitcode, name, fmt, ...)` (lines 340–397): like `err` but
`saved_errno = errno;` is captured first (line 350) and an errno suffix
may follow the message.  The guard at line 384 is `if (errno != 0)` on the
**live** errno — `errnoAtCheck`, the value `errno` holds after the
intervening stdio and `warn` calls — while the line it prints shows
`saved_errno`, i.e. `errnoEntry`. -/
def errp (strerror : Int → String) (errnoEntry errnoAtCheck : Int) (exitcode : Int)
    (name fmt : Option String) : DiagResult :=
  let fw := errExitcodeFirewall "errp" exitcode
  let nf := nameFmtFirewall "errp" name fmt
  { out := fw.1 ++ nf.1 ++
      ("FATAL: " ++ nf.2.1 ++ ": ") :: writeBody "errp" nf.2.2 ++ ["\n"] ++
      (if errnoAtCheck ≠ 0 then [errnoLine strerror errnoEntry] else []),
    exitCode := some fw.2 }

/-- The exit-code firewall of `usage_err` and `usage_errp` (lines 430–434
and 511–515): one combined range check, two warns, forces `FORCED_EXIT`. -/
def usageExitcodeFirewall (func : String) (exitcode : Int) : List String × Int :=
  if exitcode < 0 ∨ 256 ≤ exitcode then
    (warnChunks (some func)
       (some ("exitcode must be >= 0 && < 256: " ++ toString exitcode)) ++
     warnChunks (some func) (some ("forcing exit code: " ++ toString FORCED_EXIT)),
     FORCED_EXIT)
  else ([], exitcode)

/-- The usage-guidance line (lines 459–463 and 541–545): names the program
when it is set, a generic form otherwise. -/
def usageChunk (program : Option String) : String :=
  match program with
  | none => "For command line usage help, try using -h\n"
  | some p => "For command line usage help, try: " ++ p ++ " -h\n"

/-- Operation `usage_err(exitcode, name, fmt, ...)` (lines 416–475): combined
exit-code firewall, name/format firewall, the fatal message only when the
(possibly forced) exit code is `> 0` (line 447), then the usage guidance
and `"version: <version_string>\n"` (line 464), then `exit(exitcode)`. -/
def usage_err (program : Option String) (version_string : String) (exitcode : Int)
    (name fmt : Option String) : DiagResult :=
  let fw := usageExitcodeFirewall "usage_err" exitcode
  let nf := nameFmtFirewall "usage_err" name fmt
  { out := fw.1 ++ nf.1 ++
      (if 0 < fw.2 then
        ("FATAL: " ++ nf.2.1 ++ ": ") :: usageWriteBody "usage_err" nf.2.2 ++ ["\n"]
       else []) ++
      [usageChunk program, "version: " ++ version_string ++ "\n"],
    exitCode := some fw.2 }

/-- Operation `usage_errp(exitcode, name, fmt, ...)` (lines 496–557): like
`usage_err` but `saved_errno` is captured first (line 505), the errno
suffix is printed (unconditionally) inside the `exitcode > 0` block
(line 535), and the trailing version output is the bare
`fprintf(stderr, "%s", version_string)` (line 546) — no label, no
newline. -/
def usage_errp (strerror : Int → String) (errnoEntry : Int) (program : Option String)
    (version_string : String) (exitcode : Int) (name fmt : Option String) : DiagResult :=
  let fw := usageExitcodeFirewall "usage_errp" exitcode
  let nf := nameFmtFirewall "usage_errp" name fmt
  { out := fw.1 ++ nf.1 ++
      (if 0 < fw.2 then
        ("FATAL: " ++ nf.2.1 ++ ": ") :: usageWriteBody "usage_errp" nf.2.2 ++
        ["\n", errnoLine strerror errnoEntry]
       else []) ++
      [usageChunk program, version_string],
    exitCode := some fw.2 }

/-- A concrete stand-in for libc's `strerror`, used by closed theorems and
witnesses. -/
def strerrorStub : Int → String := fun e => "strerror:" ++ toString e

/-! Helper lemmas about reading the last chunks of an output list. -/

/-- Helper: the last chunk of an output list that provably ends in `l₂`. -/
theorem getLast?_append_of {α : Type} (l₁ l₂ : List α) (a : α)
    (h : l₂.getLast? = some a) : (l₁ ++ l₂).getLast? = some a := by
  rw [List.getLast?_append, h]
  rfl

/-- Helper: dropping the final two chunks of a list ending in three known
chunks leaves the first of the three last. -/
theorem getLast?_dropLast_two {α : Type} (l : List α) (a b c : α) :
    ((l ++ [a, b, c]).dropLast.dropLast).getLast? = some a := by
  have h1 : l ++ [a, b, c] = (l ++ [a, b]) ++ [c] := by simp
  have h2 : l ++ [a, b] = (l ++ [a]) ++ [b] := by simp
  rw [h1, List.dropLast_concat, h2, List.dropLast_concat]
  exact getLast?_append_of l [a] a rfl

/-- Claim C8: the call `warn("parse", "unexpected token %s", "foo")` (whose
format renders to `unexpected token foo`) writes exactly
`Warning: parse: unexpected token foo\n` to stderr — the `Warning: <source>: `
prefix, the formatted body, and the newline — and returns. -/
theorem warn_parse_foo_scenario :
    (warn (some "parse") (some "unexpected token foo")).out =
      ["Warning: parse: ", "unexpected token foo", "\n"] ∧
    String.join (warn (some "parse") (some "unexpected token foo")).out =
      "Warning: parse: unexpected token foo\n" ∧
    (warn (some "parse") (some "unexpected token foo")).exitCode = none := by
  refine ⟨by decide, by decide, rfl⟩

/-- Claim C9: when `dbg` is called with a `NULL` format and the requested
level exceeds the verbosity level, the `NULL`-format warning is still
emitted (the firewall at lines 119–122 runs before the gate at line 127),
so the call produces output even though the message body is suppressed. -/
theorem dbg_null_fmt_warning_precedes_gate (debuglevel level : Int)
    (h : debuglevel < level) :
    (dbg debuglevel level none).out =
      warnChunks (some "dbg") (some "NULL fmt given to debug") ∧
    (dbg debuglevel level none).out ≠ [] := by
  have hg : ¬ (level ≤ debuglevel) := by omega
  constructor
  · simp [dbg, hg]
  · simp [dbg, hg, warnChunks, warnLikeChunks]

/-- Witness for C9 at verbosity 2, requested level 5. -/
theorem dbg_null_fmt_warning_precedes_gate_witness :
    ((2 : Int) < 5) ∧
    ((dbg 2 5 none).out = warnChunks (some "dbg") (some "NULL fmt given to debug") ∧
     (dbg 2 5 none).out ≠ []) :=
  ⟨by decide, dbg_null_fmt_warning_precedes_gate 2 5 (by decide)⟩

/-- Claim C10: for every call, `usage_err` ends its output with the version
string rendered as `version: <version_string>\n` (line 464), while
`usage_errp` ends its output with the bare version string — no `version: `
label and no trailing newline (line 546). -/
theorem version_line_rendering_differs (strerror : Int → String) (e ec : Int)
    (program : Option String) (ver : String) (name fmt : Option String) :
    (usage_err program ver ec name fmt).out.getLast? = some ("version: " ++ ver ++ "\n") ∧
    (usage_errp strerror e program ver ec name fmt).out.getLast? = some ver := by
  constructor
  · simp [usage_err, List.getLast?_append]
  · simp [usage_errp, List.getLast?_append]

/-- Claim C2: with a non-`NULL` format whose rendering is the (nonempty)
message `m`, `dbg` writes `m` followed by a newline exactly when the
requested level is at most the verbosity level, and writes nothing
otherwise. -/
theorem dbg_emits_iff_level_le_verbosity (debuglevel level : Int) (m : String)
    (h : m ≠ "") :
    (dbg debuglevel level (some m)).out =
      (if level ≤ debuglevel then [m, "\n"] else []) := by
  simp [dbg, writeBody, h]

/-- Witness for C2: one emitting call (level 3 ≤ verbosity 5) and one
suppressed call (level 5 > verbosity 2). -/
theorem dbg_emits_iff_level_le_verbosity_witness :
    ("hello" : String) ≠ "" ∧
    (dbg 5 3 (some "hello")).out = (if (3 : Int) ≤ 5 then ["hello", "\n"] else []) ∧
    (dbg 2 5 (some "hello")).out = (if (5 : Int) ≤ 2 then ["hello", "\n"] else []) :=
  ⟨by decide, dbg_emits_iff_level_le_verbosity 5 3 "hello" (by decide),
   dbg_emits_iff_level_le_verbosity 2 5 "hello" (by decide)⟩

/-- Claim C1 (divergence witness): an `errp` call whose captured entry
errno is 0, but where the stdio writes made before line 384 have set the
live `errno` to a nonzero value (here 5), still prints the errno suffix
line — and that line shows the captured code 0.  The guard at line 384
tests the live `errno`, not `saved_errno`, so the suffix is not printed
"if and only if the captured code is nonzero" as the spec states and as
the code's own `saved_errno` bookkeeping intends. -/
theorem errp_suffix_gate_uses_live_errno :
    (errp strerrorStub 0 5 1 (some "open") (some "cannot open file.txt")).out.getLast? =
      some "errno[0]: strerror:0\n" ∧
    errnoLine strerrorStub 0 = "errno[0]: strerror:0\n" := by
  refine ⟨by decide, by decide⟩

/-- Claim C5 (counterexample to the claim as stated): a `usage_err` call
with exit code 0 but a `NULL` name does not print only the usage guidance
and the version string — the firewall warning for the missing name
precedes them. -/
theorem usage_fatal_zero_null_name_not_only_usage :
    (usage_err none "1.0" 0 none (some "x")).out ≠
      ["For command line usage help, try using -h\n", "version: 1.0\n"] ∧
    (usage_err none "1.0" 0 none (some "x")).out =
      ["Warning: usage_err: ", "called with NULL name", "\n",
       "For command line usage help, try using -h\n", "version: 1.0\n"] := by
  refine ⟨by decide, by decide⟩

/-- Claim C5 (amended): for every call to `usage_err` or `usage_errp` with
exit code exactly 0 and non-`NULL` name and format, no error message body
and no errno suffix is printed; only the usage guidance line (naming the
program when it is set, the generic form otherwise) and the version string
are printed, and the process terminates with code 0.  (With a `NULL` name
or format, the firewall warning for that violation additionally precedes
the usage output.) -/
theorem usage_fatal_zero_suppresses_body (strerror : Int → String) (e : Int)
    (program : Option String) (ver n m : String) :
    (usage_err program ver 0 (some n) (some m)).out =
      [usageChunk program, "version: " ++ ver ++ "\n"] ∧
    (usage_err program ver 0 (some n) (some m)).exitCode = some 0 ∧
    (usage_errp strerror e program ver 0 (some n) (some m)).out =
      [usageChunk program, ver] ∧
    (usage_errp strerror e program ver 0 (some n) (some m)).exitCode = some 0 := by
  refine ⟨?_, ?_, ?_, ?_⟩ <;>
    simp [usage_err, usage_errp, usageExitcodeFirewall, nameFmtFirewall]

/-- Claim C3: the errno-annotated operations capture the system error code
as their very first step (`saved_errno = errno;` at lines 220, 350, 505,
before any firewall warning), and the errno line they render shows that
captured entry value: `warnp` always ends with it; `errp` ends with it
whenever the suffix is printed at all — for every value `errnoAtCheck` the
live errno was mutated to in the meantime; `usage_errp` renders it third
from the end whenever the message body is printed (exit code in (0,256)). -/
theorem errno_suffix_shows_entry_value (strerror : Int → String)
    (e errnoAtCheck ec ec2 : Int) (name fmt program : Option String) (ver : String)
    (h1 : errnoAtCheck ≠ 0) (h2 : 0 < ec2) (h3 : ec2 < 256) :
    (warnp strerror e name fmt).out.getLast? = some (errnoLine strerror e) ∧
    (errp strerror e errnoAtCheck ec name fmt).out.getLast? =
      some (errnoLine strerror e) ∧
    ((usage_errp strerror e program ver ec2 name fmt).out.dropLast.dropLast).getLast? =
      some (errnoLine strerror e) := by
  have hrange : ¬ (ec2 < 0 ∨ 256 ≤ ec2) := by omega
  refine ⟨?_, ?_, ?_⟩
  · simp [warnp, List.getLast?_append]
  · have hout2 : (errp strerror e errnoAtCheck ec name fmt).out =
        ((errExitcodeFirewall "errp" ec).1 ++ (nameFmtFirewall "errp" name fmt).1 ++
         ("FATAL: " ++ (nameFmtFirewall "errp" name fmt).2.1 ++ ": ") ::
           writeBody "errp" (nameFmtFirewall "errp" name fmt).2.2 ++ ["\n"]) ++
        [errnoLine strerror e] := by
      simp [errp, h1]
    rw [hout2]
    exact getLast?_append_of _ _ _ rfl
  · have hout : (usage_errp strerror e program ver ec2 name fmt).out =
        ((nameFmtFirewall "usage_errp" name fmt).1 ++
         ("FATAL: " ++ (nameFmtFirewall "usage_errp" name fmt).2.1 ++ ": ") ::
           usageWriteBody "usage_errp" (nameFmtFirewall "usage_errp" name fmt).2.2 ++
         ["\n"]) ++
        [errnoLine strerror e, usageChunk program, ver] := by
      simp [usage_errp, usageExitcodeFirewall, hrange, h2]
    rw [hout, getLast?_dropLast_two]

/-- Witness for C3 at concrete inputs (entry errno 7, live errno mutated
to 5, exit codes 2 and 99). -/
theorem errno_suffix_shows_entry_value_witness :
    ((5 : Int) ≠ 0 ∧ (0 : Int) < 99 ∧ (99 : Int) < 256) ∧
    ((warnp strerrorStub 7 (some "n") (some "m")).out.getLast? =
       some (errnoLine strerrorStub 7) ∧
     (errp strerrorStub 7 5 2 (some "n") (some "m")).out.getLast? =
       some (errnoLine strerrorStub 7) ∧
     ((usage_errp strerrorStub 7 (some "p") "1.0" 99 (some "n") (some "m")).out.dropLast.dropLast).getLast? =
       some (errnoLine strerrorStub 7)) :=
  ⟨by decide,
   errno_suffix_shows_entry_value strerrorStub 7 5 2 99 (some "n") (some "m")
     (some "p") "1.0" (by decide) (by decide) (by decide)⟩

/-- Claim C6: for every input, `msg`, `dbg`, `warn` and `warnp` return to
the caller (no exit code), while `err`, `errp`, `usage_err` and
`usage_errp` always reach `exit` after writing a nonempty message — on
every control path, since each embedding produces `some` exit code and
nonempty output unconditionally. -/
theorem nonfatal_ops_return_fatal_ops_exit (strerror : Int → String)
    (debuglevel level e errnoAtCheck ec : Int) (program : Option String)
    (ver : String) (name fmt : Option String) :
    (msg fmt).exitCode = none ∧
    (dbg debuglevel level fmt).exitCode = none ∧
    (warn name fmt).exitCode = none ∧
    (warnp strerror e name fmt).exitCode = none ∧
    (err ec name fmt).exitCode.isSome ∧
    (err ec name fmt).out ≠ [] ∧
    (errp strerror e errnoAtCheck ec name fmt).exitCode.isSome ∧
    (errp strerror e errnoAtCheck ec name fmt).out ≠ [] ∧
    (usage_err program ver ec name fmt).exitCode.isSome ∧
    (usage_err program ver ec name fmt).out ≠ [] ∧
    (usage_errp strerror e program ver ec name fmt).exitCode.isSome ∧
    (usage_errp strerror e program ver ec name fmt).out ≠ [] := by
  refine ⟨rfl, rfl, rfl, rfl, rfl, ?_, rfl, ?_, rfl, ?_, rfl, ?_⟩ <;>
    simp [err, errp, usage_err, usage_errp]

/-- Claim C7: a `NULL` format or `NULL` name is recovered locally in every
operation: the placeholder (`((NULL fmt))` / `((NULL name))`) is
substituted and appears in the emitted output where the message is
emitted, a warning noting the violation precedes it, and the operation
otherwise proceeds unchanged — the non-fatal operations still return, and
the fatal operations exit with the same code as the corresponding
well-formed call, so this condition alone never terminates the process. -/
theorem null_inputs_recovered_locally (strerror : Int → String)
    (debuglevel level e errnoAtCheck ec : Int) (program : Option String)
    (ver : String) :
    (msg none).out =
      warnChunks (some "msg") (some "NULL fmt given to debug") ++ [NULL_FMT, "\n"] ∧
    (msg none).exitCode = none ∧
    (dbg debuglevel level none).out =
      warnChunks (some "dbg") (some "NULL fmt given to debug") ++
      (if level ≤ debuglevel then [NULL_FMT, "\n"] else []) ∧
    (dbg debuglevel level none).exitCode = none ∧
    (warn none none).out =
      ["Warning: warn called with NULL name\n", "Warning: warn called with NULL fmt\n",
       "Warning: " ++ NULL_NAME ++ ": ", NULL_FMT, "\n"] ∧
    (warn none none).exitCode = none ∧
    (warnp strerror e none none).out =
      ["Warning: warnp called with NULL name\n", "Warning: warnp called with NULL fmt\n",
       "Warning: " ++ NULL_NAME ++ ": ", NULL_FMT, "\n", errnoLine strerror e] ∧
    (warnp strerror e none none).exitCode = none ∧
    (err ec none none).out =
      (errExitcodeFirewall "err" ec).1 ++
      warnChunks (some "err") (some "called with NULL name") ++
      warnChunks (some "err") (some "called with NULL fmt") ++
      ["FATAL: " ++ NULL_NAME ++ ": ", NULL_FMT, "\n"] ∧
    (err ec none none).exitCode = (err ec (some "x") (some "y")).exitCode ∧
    (errp strerror e errnoAtCheck ec none none).out =
      (errExitcodeFirewall "errp" ec).1 ++
      warnChunks (some "errp") (some "called with NULL name") ++
      warnChunks (some "errp") (some "called with NULL fmt") ++
      ["FATAL: " ++ NULL_NAME ++ ": ", NULL_FMT, "\n"] ++
      (if errnoAtCheck ≠ 0 then [errnoLine strerror e] else []) ∧
    (errp strerror e errnoAtCheck ec none none).exitCode =
      (errp strerror e errnoAtCheck ec (some "x") (some "y")).exitCode ∧
    (usage_err program ver ec none none).out =
      (usageExitcodeFirewall "usage_err" ec).1 ++
      warnChunks (some "usage_err") (some "called with NULL name") ++
      warnChunks (some "usage_err") (some "called with NULL fmt") ++
      (if 0 < (usageExitcodeFirewall "usage_err" ec).2 then
        ["FATAL: " ++ NULL_NAME ++ ": ", NULL_FMT, "\n"] else []) ++
      [usageChunk program, "version: " ++ ver ++ "\n"] ∧
    (usage_err program ver ec none none).exitCode =
      (usage_err program ver ec (some "x") (some "y")).exitCode ∧
    (usage_errp strerror e program ver ec none none).out =
      (usageExitcodeFirewall "usage_errp" ec).1 ++
      warnChunks (some "usage_errp") (some "called with NULL name") ++
      warnChunks (some "usage_errp") (some "called with NULL fmt") ++
      (if 0 < (usageExitcodeFirewall "usage_errp" ec).2 then
        ["FATAL: " ++ NULL_NAME ++ ": ", NULL_FMT, "\n", errnoLine strerror e] else []) ++
      [usageChunk program, ver] ∧
    (usage_errp strerror e program ver ec none none).exitCode =
      (usage_errp strerror e program ver ec (some "x") (some "y")).exitCode := by
  have hnf : NULL_FMT ≠ "" := by decide
  refine ⟨?_, rfl, ?_, rfl, ?_, rfl, ?_, rfl, ?_, rfl, ?_, rfl, ?_, rfl, ?_, rfl⟩
  · simp [msg, writeBody, NULL_FMT]
  · simp [dbg, writeBody, NULL_FMT]
  · simp [warn, warnChunks, warnLikeChunks, writeBody, NULL_FMT, NULL_NAME]
  · simp [warnp, warnLikeChunks, writeBody, NULL_FMT, NULL_NAME]
  · simp [err, nameFmtFirewall, writeBody, NULL_FMT]
  · simp [errp, nameFmtFirewall, writeBody, NULL_FMT]
  · simp [usage_err, nameFmtFirewall, usageWriteBody, NULL_FMT]
  · simp [usage_errp, nameFmtFirewall, usageWriteBody, NULL_FMT]

/-- Claim C4: the fatal-class operations validate the requested exit code.
With the code in [0, 255] (equivalently [0, 256)) the process terminates
with exactly that code.  Outside the range, exactly two warnings are
emitted — one noting the out-of-range value, one confirming the forced
value — and the process terminates with `FORCED_EXIT` = 255: the full
output is the two warn-call writes followed by the fatal message, nothing
else.  (Stated for well-formed calls: non-`NULL` name and format, nonempty
rendered message.) -/
theorem fatal_exit_code_validation (strerror : Int → String)
    (e errnoAtCheck ec : Int) (program : Option String) (ver n m : String)
    (hm : m ≠ "") :
    FORCED_EXIT = 255 ∧
    (0 ≤ ec → ec < 256 →
      (err ec (some n) (some m)).exitCode = some ec ∧
      (errp strerror e errnoAtCheck ec (some n) (some m)).exitCode = some ec ∧
      (usage_err program ver ec (some n) (some m)).exitCode = some ec ∧
      (usage_errp strerror e program ver ec (some n) (some m)).exitCode = some ec) ∧
    (256 ≤ ec →
      (err ec (some n) (some m)).exitCode = some FORCED_EXIT ∧
      (errp strerror e errnoAtCheck ec (some n) (some m)).exitCode = some FORCED_EXIT ∧
      (usage_err program ver ec (some n) (some m)).exitCode = some FORCED_EXIT ∧
      (usage_errp strerror e program ver ec (some n) (some m)).exitCode = some FORCED_EXIT ∧
      (err ec (some n) (some m)).out =
        warnChunks (some "err") (some ("called with exitcode >= 256: " ++ toString ec)) ++
        warnChunks (some "err") (some ("forcing exit code: " ++ toString FORCED_EXIT)) ++
        ["FATAL: " ++ n ++ ": ", m, "\n"] ∧
      (errp strerror e errnoAtCheck ec (some n) (some m)).out =
        warnChunks (some "errp") (some ("called with exitcode >= 256: " ++ toString ec)) ++
        warnChunks (some "errp") (some ("forcing exit code: " ++ toString FORCED_EXIT)) ++
        ["FATAL: " ++ n ++ ": ", m, "\n"] ++
        (if errnoAtCheck ≠ 0 then [errnoLine strerror e] else []) ∧
      (usage_err program ver ec (some n) (some m)).out =
        warnChunks (some "usage_err")
          (some ("exitcode must be >= 0 && < 256: " ++ toString ec)) ++
        warnChunks (some "usage_err") (some ("forcing exit code: " ++ toString FORCED_EXIT)) ++
        ["FATAL: " ++ n ++ ": ", m, "\n", usageChunk program,
         "version: " ++ ver ++ "\n"] ∧
      (usage_errp strerror e program ver ec (some n) (some m)).out =
        warnChunks (some "usage_errp")
          (some ("exitcode must be >= 0 && < 256: " ++ toString ec)) ++
        warnChunks (some "usage_errp") (some ("forcing exit code: " ++ toString FORCED_EXIT)) ++
        ["FATAL: " ++ n ++ ": ", m, "\n", errnoLine strerror e, usageChunk program, ver]) ∧
    (ec < 0 →
      (err ec (some n) (some m)).exitCode = some FORCED_EXIT ∧
      (errp strerror e errnoAtCheck ec (some n) (some m)).exitCode = some FORCED_EXIT ∧
      (usage_err program ver ec (some n) (some m)).exitCode = some FORCED_EXIT ∧
      (usage_errp strerror e program ver ec (some n) (some m)).exitCode = some FORCED_EXIT ∧
      (err ec (some n) (some m)).out =
        warnChunks (some "err") (some ("called with exitcode < 0: " ++ toString ec)) ++
        warnChunks (some "err") (some ("forcing exit code: " ++ toString FORCED_EXIT)) ++
        ["FATAL: " ++ n ++ ": ", m, "\n"] ∧
      (errp strerror e errnoAtCheck ec (some n) (some m)).out =
        warnChunks (some "errp") (some ("called with exitcode < 0: " ++ toString ec)) ++
        warnChunks (some "errp") (some ("forcing exit code: " ++ toString FORCED_EXIT)) ++
        ["FATAL: " ++ n ++ ": ", m, "\n"] ++
        (if errnoAtCheck ≠ 0 then [errnoLine strerror e] else []) ∧
      (usage_err program ver ec (some n) (some m)).out =
        warnChunks (some "usage_err")
          (some ("exitcode must be >= 0 && < 256: " ++ toString ec)) ++
        warnChunks (some "usage_err") (some ("forcing exit code: " ++ toString FORCED_EXIT)) ++
        ["FATAL: " ++ n ++ ": ", m, "\n", usageChunk program,
         "version: " ++ ver ++ "\n"] ∧
      (usage_errp strerror e program ver ec (some n) (some m)).out =
        warnChunks (some "usage_errp")
          (some ("exitcode must be >= 0 && < 256: " ++ toString ec)) ++
        warnChunks (some "usage_errp") (some ("forcing exit code: " ++ toString FORCED_EXIT)) ++
        ["FATAL: " ++ n ++ ": ", m, "\n", errnoLine strerror e, usageChunk program, ver]) := by
  refine ⟨rfl, ?_, ?_, ?_⟩
  · intro h0 h1
    have hA : ¬ (256 ≤ ec) := by omega
    have hB : ¬ (ec < 0) := by omega
    have hC : ¬ (ec < 0 ∨ 256 ≤ ec) := by omega
    refine ⟨?_, ?_, ?_, ?_⟩ <;>
      simp [err, errp, usage_err, usage_errp, errExitcodeFirewall,
            usageExitcodeFirewall, hA, hB, hC]
  · intro h
    have hu : ec < 0 ∨ 256 ≤ ec := Or.inr h
    refine ⟨?_, ?_, ?_, ?_, ?_, ?_, ?_, ?_⟩ <;>
      simp [err, errp, usage_err, usage_errp, errExitcodeFirewall,
            usageExitcodeFirewall, nameFmtFirewall, writeBody, usageWriteBody,
            FORCED_EXIT, h, hu, hm]
  · intro h
    have hA : ¬ (256 ≤ ec) := by omega
    have hu : ec < 0 ∨ 256 ≤ ec := Or.inl h
    refine ⟨?_, ?_, ?_, ?_, ?_, ?_, ?_, ?_⟩ <;>
      simp [err, errp, usage_err, usage_errp, errExitcodeFirewall,
            usageExitcodeFirewall, nameFmtFirewall, writeBody, usageWriteBody,
            FORCED_EXIT, h, hA, hu, hm]

/-- Witness for C4: an in-range call exits with its own code; out-of-range
calls (300 and -1) exit with 255 after exactly the two warnings. -/
theorem fatal_exit_code_validation_witness :
    ("boom" : String) ≠ "" ∧
    (err 99 (some "f") (some "boom")).exitCode = some 99 ∧
    (err 300 (some "f") (some "boom")).exitCode = some FORCED_EXIT ∧
    (err (-1) (some "f") (some "boom")).out =
      warnChunks (some "err") (some ("called with exitcode < 0: " ++ toString (-1 : Int))) ++
      warnChunks (some "err") (some ("forcing exit code: " ++ toString FORCED_EXIT)) ++
      ["FATAL: " ++ "f" ++ ": ", "boom", "\n"] :=
  ⟨by decide,
   ((fatal_exit_code_validation strerrorStub 0 0 99 none "1.0" "f" "boom"
      (by decide)).2.1 (by norm_num) (by norm_num)).1,
   ((fatal_exit_code_validation strerrorStub 0 0 300 none "1.0" "f" "boom"
      (by decide)).2.2.1 (by norm_num)).1,
   ((fatal_exit_code_validation strerrorStub 0 0 (-1) none "1.0" "f" "boom"
      (by decide)).2.2.2 (by norm_num)).2.2.2.2.1⟩

end Debug
